import Mathlib

/-
Verification of the escrow transaction logic of the paket-core/bridge
repository. The definitions below are a shallow embedding of src/paket.py:
pure builder manipulations become Lean functions on explicit builder values,
the ledger reads that the source performs through horizon become explicit
parameters, and the exceptions of the source become explicit error values.
-/

namespace Paket

/-- Token code constant from src/paket.py line 14. -/
def BUL_TOKEN_CODE : String := "BUL"

/-- Issuer address, read from the environment variable PAKET_USER_ISSUER in
src/paket.py line 15; its concrete value never matters to the logic, so it is
a fixed constant here. -/
def ISSUER : String := "PAKET_USER_ISSUER"

/-- A signer identity as passed to append_set_options_op: either the hash of a
pre-authorized transaction (signer_type preAuthTx) or an ed25519 public key
(signer_type ed25519PublicKey). -/
inductive SignerId where
  | preAuthTx (hash : Nat)
  | ed25519PublicKey (key : String)
deriving DecidableEq

/-- The stellar operations appended by the builder calls that appear in
src/paket.py. The set-options SDK call is used in two shapes there: adding one
signer with a weight, and setting the master weight together with the three
thresholds; the two shapes are the two set-options constructors. A payment
operation carries an optional per-operation source account (the fifth
positional argument of append_payment_op, used only in launch_paket). -/
inductive Operation where
  | payment (destination : String) (amount : Int) (asset_code asset_issuer : String)
      (source : Option String)
  | accountMerge (destination : String)
  | setOptionsSigner (signer : SignerId) (weight : Nat)
  | setOptionsWeights (master_weight low_threshold med_threshold high_threshold : Nat)
deriving DecidableEq

/-- A time bound as built by the anonymous TimeBound objects of src/paket.py
lines 143 and 156: a minTime and a maxTime, with 0 meaning no bound. -/
structure TimeBound where
  minTime : Nat
  maxTime : Nat
deriving DecidableEq

/-- A transaction envelope as produced by builder.gen_te: source account,
sequence number, ordered operations and the list of time bounds. The add_memo
helper of src/paket.py line 71 returns before touching the builder (the memo
code is disabled), so envelopes carry no memo. -/
structure Envelope where
  source : String
  sequence : Nat
  operations : List Operation
  time_bounds : List TimeBound
deriving DecidableEq

/-- The mutable stellar_base builder, reduced to the state that gen_te reads. -/
structure Builder where
  address : String
  sequence : Nat
  operations : List Operation
  time_bounds : List TimeBound
deriving DecidableEq

def Builder.append_payment_op (b : Builder) (destination : String) (amount : Int)
    (asset_code asset_issuer : String) (source : Option String) : Builder :=
  ⟨b.address, b.sequence,
    b.operations ++ [Operation.payment destination amount asset_code asset_issuer source],
    b.time_bounds⟩

def Builder.append_account_merge_op (b : Builder) (destination : String) : Builder :=
  ⟨b.address, b.sequence, b.operations ++ [Operation.accountMerge destination], b.time_bounds⟩

def Builder.append_set_options_signer (b : Builder) (signer : SignerId) (weight : Nat) :
    Builder :=
  ⟨b.address, b.sequence, b.operations ++ [Operation.setOptionsSigner signer weight],
    b.time_bounds⟩

def Builder.append_set_options_weights (b : Builder)
    (master_weight low_threshold med_threshold high_threshold : Nat) : Builder :=
  ⟨b.address, b.sequence,
    b.operations ++
      [Operation.setOptionsWeights master_weight low_threshold med_threshold high_threshold],
    b.time_bounds⟩

def Builder.add_time_bounds (b : Builder) (tb : TimeBound) : Builder :=
  ⟨b.address, b.sequence, b.operations, b.time_bounds ++ [tb]⟩

def Builder.gen_te (b : Builder) : Envelope :=
  ⟨b.address, b.sequence, b.operations, b.time_bounds⟩

/-- A deterministic code for a string, used by the envelope hash. -/
def str_code (s : String) : Nat :=
  s.toList.foldl (fun a c => a * 1114112 + (c.toNat + 1)) 1

/-- A deterministic code for an integer amount. -/
def int_code (i : Int) : Nat :=
  if 0 ≤ i then 2 * i.toNat else 2 * (-i).toNat + 1

/-- Field combiner for the envelope hash. -/
def mix (a b : Nat) : Nat := a * 1000003 + b + 1

def opt_str_code : Option String → Nat
  | none => 0
  | some s => str_code s + 1

def signer_code : SignerId → Nat
  | .preAuthTx h => 2 * h
  | .ed25519PublicKey k => 2 * str_code k + 1

def op_code : Operation → Nat
  | .payment dest amount code issuer src =>
      mix 1 (mix (str_code dest)
        (mix (int_code amount) (mix (str_code code) (mix (str_code issuer) (opt_str_code src)))))
  | .accountMerge dest => mix 2 (str_code dest)
  | .setOptionsSigner s w => mix 3 (mix (signer_code s) w)
  | .setOptionsWeights m l md h => mix 4 (mix m (mix l (mix md h)))

def tb_code (tb : TimeBound) : Nat := mix tb.minTime tb.maxTime

def list_code (f : α → Nat) (l : List α) : Nat := l.foldl (fun a x => mix a (f x)) 7

/-- The content hash of an envelope, standing in for envelope.hash_meta of the
stellar SDK: a fixed deterministic function of every field of the envelope. -/
def hash_meta (e : Envelope) : Nat :=
  mix (str_code e.source)
    (mix e.sequence (mix (list_code op_code e.operations) (list_code tb_code e.time_bounds)))

/-- gen_builder of src/paket.py line 88: with a truthy sequence_delta the
builder is seeded with the account baseline sequence plus the delta (the
baseline is what get_bul_account reads from the ledger at that moment, passed
here explicitly); otherwise the builder reads the same baseline itself. -/
def gen_builder (address : String) (baseline : Nat) : Option Nat → Builder
  | some d => if d = 0 then ⟨address, baseline, [], []⟩ else ⟨address, baseline + d, [], []⟩
  | none => ⟨address, baseline, [], []⟩

/-- The four envelopes returned by prepare_escrow_transactions. -/
structure EscrowPlan where
  set_options_transaction : Envelope
  refund_transaction : Envelope
  payment_transaction : Envelope
  merge_transaction : Envelope
deriving DecidableEq

/-- prepare_escrow_transactions of src/paket.py lines 137-186, with the escrow
account baseline sequence number (read through get_bul_account inside each
gen_builder call) passed explicitly; per the single-submitter discipline all
four reads return the same baseline. -/
def prepare_escrow_transactions (escrow_address refundee_address payment_address
    recipient_address : String) (amount : Int) (min_time : Nat) (baseline : Nat) :
    EscrowPlan :=
  let refund_envelope :=
    ((((gen_builder escrow_address baseline (some 2)).append_payment_op
        refundee_address amount BUL_TOKEN_CODE ISSUER none).add_time_bounds
        ⟨min_time, 0⟩)).gen_te
  let payment_envelope :=
    ((gen_builder escrow_address baseline (some 2)).append_payment_op
        payment_address amount BUL_TOKEN_CODE ISSUER none).gen_te
  let merge_envelope :=
    (((gen_builder escrow_address baseline (some 3)).append_account_merge_op
        refundee_address).add_time_bounds ⟨min_time, 0⟩).gen_te
  let set_options_envelope :=
    ((((((gen_builder escrow_address baseline none).append_set_options_signer
        (.preAuthTx (hash_meta refund_envelope)) 2).append_set_options_signer
        (.preAuthTx (hash_meta payment_envelope)) 1).append_set_options_signer
        (.preAuthTx (hash_meta merge_envelope)) 2).append_set_options_signer
        (.ed25519PublicKey recipient_address) 1).append_set_options_weights 0 1 2 3).gen_te
  ⟨set_options_envelope, refund_envelope, payment_envelope, merge_envelope⟩

/-- The value assembled by launch_paket: the package_details dict plus the
set-options envelope it signs and submits on line 241. -/
structure LaunchResult where
  paket_id : String
  launcher_pubkey : String
  recipient_pubkey : String
  deadline : Nat
  payment : Int
  collateral : Int
  bul_refund_transaction : Envelope
  payment_transaction : Envelope
  set_options_transaction : Envelope
deriving DecidableEq

/-- launch_paket of src/paket.py lines 189-248. The escrow keypair is random
in the source, so its address is a parameter; account creation and the trust
transaction are submitted first and baseline is the escrow account sequence
read on line 204, after which the source sets sequence := baseline + 1 for the
refund and payment builders. The refund builder adds no time bounds: only the
disabled add_memo call mentions the deadline. The set-options builder is
created without an explicit sequence and therefore reads the still unchanged
baseline itself. -/
def launch_paket (escrow launcher recipient courier : String) (deadline : Nat)
    (payment collateral : Int) (baseline : Nat) : LaunchResult :=
  let sequence := baseline + 1
  let refund_envelope :=
    (Builder.append_payment_op ⟨escrow, sequence, [], []⟩ launcher (payment + collateral)
      "BUL" ISSUER (some escrow)).gen_te
  let payment_envelope :=
    (Builder.append_payment_op ⟨escrow, sequence, [], []⟩ courier (payment + collateral)
      "BUL" ISSUER (some escrow)).gen_te
  let set_options_envelope :=
    (((((⟨escrow, baseline, [], []⟩ : Builder).append_set_options_signer
        (.preAuthTx (hash_meta refund_envelope)) 2).append_set_options_signer
        (.preAuthTx (hash_meta payment_envelope)) 1).append_set_options_signer
        (.ed25519PublicKey recipient) 1).append_set_options_weights 0 1 2 3).gen_te
  ⟨escrow, launcher, recipient, deadline, payment, collateral,
    refund_envelope, payment_envelope, set_options_envelope⟩

/-- The StellarTransactionFailed exception raised by refund in src/paket.py
lines 282 and 285, with the numbers its message reports. -/
inductive StellarTransactionFailed where
  | too_early (minTime now : Nat)
  | too_late (maxTime now : Nat)
deriving DecidableEq

/-- What a refund call does in the end: raise before submitting, or submit the
imported envelope. -/
inductive RefundOutcome where
  | raised (failure : StellarTransactionFailed)
  | submitted (envelope : Envelope)
deriving DecidableEq

/-- The loop over builder.time_bounds in refund, src/paket.py lines 280-286:
the first violated bound raises, the minTime check of a bound coming before
its maxTime check. -/
def check_time_bounds (now : Nat) : List TimeBound → Option StellarTransactionFailed
  | [] => none
  | tb :: rest =>
    if 0 < tb.minTime ∧ now < tb.minTime then some (.too_early tb.minTime now)
    else if 0 < tb.maxTime ∧ tb.maxTime < now then some (.too_late tb.maxTime now)
    else check_time_bounds now rest

/-- refund of src/paket.py lines 274-287: import the envelope, check every
time bound against the current time, and submit only when no bound is
violated. -/
def refund (now : Nat) (refund_envelope : Envelope) : RefundOutcome :=
  match check_time_bounds now refund_envelope.time_bounds with
  | some failure => .raised failure
  | none => .submitted refund_envelope

/-- The arguments a relay call would receive (as the HTTP layer passes them);
relay_payment in the source discards all of its arguments. -/
structure RelayArgs where
  relayer_pubkey : String
  relayee_pubkey : String
  relayer_stroops : Int
  relayee_stroops : Int
  deadline : Nat
deriving DecidableEq

/-- relay_payment of src/paket.py lines 269-271: it unconditionally raises
NotImplementedError, modelled as the error branch of an Except that would
otherwise carry a child escrow plan. -/
def relay_payment (_args : RelayArgs) : Except String EscrowPlan :=
  .error "Relay payment not yet implemented."

/-- One entry of details.balances as returned by horizon: a dict whose keys
are read with .get, hence every field is optional in principle; the numeric
balance is carried abstractly as an integer number of stroops. -/
structure BalanceEntry where
  asset_type : Option String
  asset_code : Option String
  asset_issuer : Option String
  balance : Int
deriving DecidableEq

/-- The address details that stellar_base.address.Address.get exposes and
get_bul_account reads. -/
structure AddressDetails where
  sequence : Nat
  signers : List String
  thresholds : List Nat
  balances : List BalanceEntry
deriving DecidableEq

/-- The account dict built by get_bul_account: sequence, signers, thresholds
plus the optional XLM and BUL balance keys. -/
structure BulAccount where
  sequence : Nat
  signers : List String
  thresholds : List Nat
  xlm_balance : Option Int
  bul_balance : Option Int
deriving DecidableEq

/-- The two exceptions get_bul_account can raise: the AssertionError of line
59 for a missing account and MissingTrust of line 67. -/
inductive AccountError where
  | no_account_found (address : String)
  | missing_trust (address : String)
deriving DecidableEq

/-- The loop of src/paket.py lines 61-65: walk the balances in order, the last
native entry setting the XLM balance and the last entry whose asset code is
BUL and whose issuer is ISSUER setting the BUL balance. -/
def scan_balances (entries : List BalanceEntry) : Option Int × Option Int :=
  entries.foldl
    (fun acc b =>
      (if b.asset_type = some "native" then some b.balance else acc.1,
       if b.asset_code = some BUL_TOKEN_CODE ∧ b.asset_issuer = some ISSUER then some b.balance
       else acc.2))
    (none, none)

/-- get_bul_account of src/paket.py lines 53-68, with the horizon lookup
passed as an explicit partial map from addresses to details. -/
def get_bul_account (ledger : String → Option AddressDetails) (address : String)
    (accept_untrusted : Bool) : Except AccountError BulAccount :=
  match ledger address with
  | none => .error (.no_account_found address)
  | some details =>
    let bal := scan_balances details.balances
    if bal.2 = none ∧ accept_untrusted = false then .error (.missing_trust address)
    else .ok ⟨details.sequence, details.signers, details.thresholds, bal.1, bal.2⟩

/-- The prerequisite ritual of spec section 4.1 restricted to the steps that
consume sequence slots of the escrow account itself: the trust transaction and
the signer-configuration transaction, in order, one slot each (the account
creation transaction is paid from the launcher account and consumes none of
the escrow account slots). The hard-coded sequence deltas 2 and 3 of
prepare_escrow_transactions encode exactly these two slots. -/
def prerequisite_ritual : List (String × Nat) := [("trust", 1), ("set_options", 1)]

/-- Total number of escrow-account sequence slots the ritual consumes. -/
def ritual_slots : Nat := (prerequisite_ritual.map Prod.snd).sum

/-- Modelled from the spec: the ledger sequence-number rule (glossary:
a per-account monotonically increasing counter a transaction must match
exactly to be valid). Starting from a current account sequence, process a list
of submitted transaction sequence numbers in order and return the list of the
ones the ledger accepts: a transaction is accepted exactly when its sequence
number is the current sequence plus one, and acceptance bumps the current
sequence to it. The ledger itself is external to src, so this rule is taken
from the spec text. -/
def ledger_accepted (current : Nat) : List Nat → List Nat
  | [] => []
  | n :: rest =>
    if n = current + 1 then n :: ledger_accepted n rest else ledger_accepted current rest

/-- The three threshold categories of the ledger. -/
inductive ThresholdCategory where
  | low
  | medium
  | high
deriving DecidableEq

/-- Modelled from the spec: the partition of ledger operation kinds into
threshold categories (spec sections 4.3 and 9 and the glossary): payment
operations are medium-threshold, while account merge and signer or threshold
changes are high-threshold. This partition is enforced by the external
ledger and appears in no file under src. -/
def op_threshold_category : Operation → ThresholdCategory
  | .payment _ _ _ _ _ => .medium
  | .accountMerge _ => .high
  | .setOptionsSigner _ _ => .high
  | .setOptionsWeights _ _ _ _ => .high

/-- The pre-authorized-transaction signer hashes embedded in an envelope, in
operation order. -/
def preauth_signer_hashes (e : Envelope) : List Nat :=
  e.operations.filterMap fun op =>
    match op with
    | .setOptionsSigner (.preAuthTx h) _ => some h
    | _ => none

/-- Every sequence number the ledger accepts is strictly above the starting
current sequence. -/
theorem ledger_accepted_gt : ∀ (txs : List Nat) (current s : Nat),
    s ∈ ledger_accepted current txs → current < s := by
  intro txs
  induction txs with
  | nil => intro current s h; simp [ledger_accepted] at h
  | cons n rest ih =>
    intro current s h
    rw [ledger_accepted] at h
    split at h
    · next hn =>
      rcases List.mem_cons.mp h with h1 | h1
      · omega
      · have := ih n s h1
        omega
    · exact ih current s h

/-- Along any submission trace the ledger accepts a given sequence number at
most once: once a transaction with that sequence lands, the account counter
has moved past it for good. -/
theorem ledger_accepted_count_le_one : ∀ (txs : List Nat) (current s : Nat),
    (ledger_accepted current txs).count s ≤ 1 := by
  intro txs
  induction txs with
  | nil => intro current s; simp [ledger_accepted]
  | cons n rest ih =>
    intro current s
    rw [ledger_accepted]
    split
    · by_cases hs : s = n
      · subst hs
        have hnot : s ∉ ledger_accepted s rest := by
          intro hmem
          exact absurd (ledger_accepted_gt rest s s hmem) (lt_irrefl s)
        rw [List.count_cons_self, List.count_eq_zero.mpr hnot]
      · rw [List.count_cons_of_ne hs]
        exact ih n s
    · exact ih current s

/-- C1: every escrow plan built by the plan builder configures the escrow
account with a refund-hash signer of weight 2, a payment-hash signer of
weight 1, a recipient-pubkey signer of weight 1, master key weight 0 and
thresholds low 1, medium 2, high 3; the set-options envelope built by
launch_paket assigns the very same weights and thresholds. -/
theorem set_options_weights_and_thresholds (e f p r l c : String) (a pay col : Int)
    (mt dl b lb : Nat) :
    (prepare_escrow_transactions e f p r a mt b).set_options_transaction.operations =
      [.setOptionsSigner
        (.preAuthTx (hash_meta (prepare_escrow_transactions e f p r a mt b).refund_transaction))
        2,
       .setOptionsSigner
        (.preAuthTx (hash_meta (prepare_escrow_transactions e f p r a mt b).payment_transaction))
        1,
       .setOptionsSigner
        (.preAuthTx (hash_meta (prepare_escrow_transactions e f p r a mt b).merge_transaction))
        2,
       .setOptionsSigner (.ed25519PublicKey r) 1,
       .setOptionsWeights 0 1 2 3] ∧
    (launch_paket e l r c dl pay col lb).set_options_transaction.operations =
      [.setOptionsSigner
        (.preAuthTx (hash_meta (launch_paket e l r c dl pay col lb).bul_refund_transaction)) 2,
       .setOptionsSigner
        (.preAuthTx (hash_meta (launch_paket e l r c dl pay col lb).payment_transaction)) 1,
       .setOptionsSigner (.ed25519PublicKey r) 1,
       .setOptionsWeights 0 1 2 3] :=
  ⟨rfl, rfl⟩

/-- C4: recomputing the envelope hash of the refund, payment and merge
envelopes of any escrow plan yields exactly the pre-authorized-transaction
signer identities embedded, in that order, in the set-options envelope of the
same plan. -/
theorem preauth_hashes_round_trip (e f p r : String) (a : Int) (mt b : Nat) :
    preauth_signer_hashes
        (prepare_escrow_transactions e f p r a mt b).set_options_transaction =
      [hash_meta (prepare_escrow_transactions e f p r a mt b).refund_transaction,
       hash_meta (prepare_escrow_transactions e f p r a mt b).payment_transaction,
       hash_meta (prepare_escrow_transactions e f p r a mt b).merge_transaction] :=
  rfl

/-- C5: for every escrow built by launch_paket from a payment and a
collateral, the refund envelope is a single payment operation from the escrow
account to the launcher over payment + collateral, and the payment envelope is
a single payment operation from the escrow account to the courier over
payment + collateral. -/
theorem launch_payment_amounts (e l r c : String) (dl : Nat) (pay col : Int) (b : Nat) :
    (launch_paket e l r c dl pay col b).bul_refund_transaction.source = e ∧
    (launch_paket e l r c dl pay col b).bul_refund_transaction.operations =
      [.payment l (pay + col) "BUL" ISSUER (some e)] ∧
    (launch_paket e l r c dl pay col b).payment_transaction.source = e ∧
    (launch_paket e l r c dl pay col b).payment_transaction.operations =
      [.payment c (pay + col) "BUL" ISSUER (some e)] :=
  ⟨rfl, rfl, rfl, rfl⟩

/-- C2 counterexample: in the concrete plan built over baseline sequence 10
the refund transaction carries sequence 12 and the merge transaction carries
sequence 13, and a single ledger history starting at current sequence 11
accepts both of them, so it is false that at most one of the refund, payment
and merge transactions can ever be accepted by the ledger. -/
theorem refund_and_merge_both_accepted :
    (prepare_escrow_transactions "E" "L" "C" "R" 150000000 600 10).merge_transaction.sequence =
      (prepare_escrow_transactions "E" "L" "C" "R" 150000000 600 10).refund_transaction.sequence
        + 1 ∧
    ledger_accepted 11
      [(prepare_escrow_transactions "E" "L" "C" "R" 150000000 600 10).refund_transaction.sequence,
       (prepare_escrow_transactions "E" "L" "C" "R" 150000000 600 10).merge_transaction.sequence]
      = [12, 13] ∧
    ¬ (ledger_accepted 11
        [(prepare_escrow_transactions "E" "L" "C" "R" 150000000 600
            10).refund_transaction.sequence,
         (prepare_escrow_transactions "E" "L" "C" "R" 150000000 600
            10).merge_transaction.sequence]).length ≤ 1 :=
  ⟨rfl, rfl, by decide⟩

/-- C2 (amended): in every escrow plan the refund and payment envelopes
carry the same sequence number, equal to the escrow baseline sequence plus the
sequence slots consumed by the prerequisite ritual, and the merge envelope
carries that sequence plus one; hence along any ledger history at most one
transaction carrying the shared refund and payment sequence number is ever
accepted, so at most one of the refund and payment envelopes can land, while
the merge envelope carries the immediately following sequence number. -/
theorem branch_sequence_exclusivity (e f p r : String) (a : Int) (mt b : Nat) :
    (prepare_escrow_transactions e f p r a mt b).refund_transaction.sequence =
      b + ritual_slots ∧
    (prepare_escrow_transactions e f p r a mt b).payment_transaction.sequence =
      (prepare_escrow_transactions e f p r a mt b).refund_transaction.sequence ∧
    (prepare_escrow_transactions e f p r a mt b).merge_transaction.sequence =
      (prepare_escrow_transactions e f p r a mt b).refund_transaction.sequence + 1 ∧
    ∀ (current : Nat) (txs : List Nat),
      (ledger_accepted current txs).count
        (prepare_escrow_transactions e f p r a mt b).refund_transaction.sequence ≤ 1 :=
  ⟨rfl, rfl, rfl, fun current txs => ledger_accepted_count_le_one txs current _⟩

/-- C3: the plan built by prepare_escrow_transactions carries the claimed
time bounds, but the refund envelope built by launch_paket carries no time
bounds at all (the deadline appears only in the disabled memo helper), and
launch_paket builds no merge envelope: evaluated at the failing input, the
launch refund envelope has an empty time-bounds list while the prepared plan
has lower bound 600 on refund and merge and no bounds on payment. -/
theorem launch_refund_missing_timelock :
    (launch_paket "E" "L" "R" "C" 600 50000000 100000000 7).bul_refund_transaction.time_bounds
      = [] ∧
    (prepare_escrow_transactions "E" "L" "C" "R" 150000000 600 7).refund_transaction.time_bounds
      = [⟨600, 0⟩] ∧
    (prepare_escrow_transactions "E" "L" "C" "R" 150000000 600 7).merge_transaction.time_bounds
      = [⟨600, 0⟩] ∧
    (prepare_escrow_transactions "E" "L" "C" "R" 150000000 600 7).payment_transaction.time_bounds
      = [] :=
  ⟨rfl, rfl, rfl, rfl⟩

/-- C8: in the concrete escrow plan the merge-hash signer is configured with
weight 2, the merge envelope consists of one account-merge operation whose
threshold category is high, and the configured high threshold is 3, so the
merge-hash signer weight does not reach the threshold the merge envelope must
satisfy alone and the merge envelope is not authorizable by its
pre-authorized-transaction signer without a co-signer. -/
theorem merge_weight_below_required_threshold :
    (prepare_escrow_transactions "E" "L" "C" "R" 150000000 600 7).set_options_transaction.operations[2]?
      = some (.setOptionsSigner
          (.preAuthTx
            (hash_meta
              (prepare_escrow_transactions "E" "L" "C" "R" 150000000 600 7).merge_transaction))
          2) ∧
    (prepare_escrow_transactions "E" "L" "C" "R" 150000000 600 7).merge_transaction.operations
      = [.accountMerge "L"] ∧
    op_threshold_category (.accountMerge "L") = .high ∧
    (prepare_escrow_transactions "E" "L" "C" "R" 150000000 600 7).set_options_transaction.operations[4]?
      = some (.setOptionsWeights 0 1 2 3) ∧
    ¬ (2 : Nat) ≥ 3 :=
  ⟨rfl, rfl, rfl, rfl, by decide⟩

/-- C6 counterexample: with payment 0 (so payment ≤ 0) and deadline 0 (in the
past for any positive clock) launch_paket neither raises InvalidAmount nor
PastDeadline; no such errors exist anywhere in src/paket.py, and the call
builds and returns its envelopes unconditionally. -/
theorem launch_builds_despite_invalid_inputs :
    (launch_paket "E" "L" "R" "C" 0 0 0 7).bul_refund_transaction =
      ⟨"E", 8, [.payment "L" 0 "BUL" ISSUER (some "E")], []⟩ ∧
    (launch_paket "E" "L" "R" "C" 0 0 0 7).set_options_transaction.operations.length = 4 :=
  ⟨rfl, rfl⟩

/-- C6 (amended): the escrow plan builders perform no validation of the
payment amount or the deadline: even for payment ≤ 0 and deadline ≤ now they
run to completion and build every envelope, raising neither InvalidAmount nor
PastDeadline (no such failure exists in the code). -/
theorem builders_perform_no_validation
    (escrow launcher recipient courier refundee payment_address : String)
    (deadline min_time now baseline : Nat) (payment collateral amount : Int)
    (_hpay : payment ≤ 0) (_hdead : deadline ≤ now) (_hamt : amount ≤ 0) :
    (launch_paket escrow launcher recipient courier deadline payment collateral
        baseline).bul_refund_transaction.operations =
      [.payment launcher (payment + collateral) "BUL" ISSUER (some escrow)] ∧
    (launch_paket escrow launcher recipient courier deadline payment collateral
        baseline).set_options_transaction.operations.length = 4 ∧
    (prepare_escrow_transactions escrow refundee payment_address recipient amount min_time
        baseline).refund_transaction.operations =
      [.payment refundee amount BUL_TOKEN_CODE ISSUER none] ∧
    (prepare_escrow_transactions escrow refundee payment_address recipient amount min_time
        baseline).set_options_transaction.operations.length = 5 :=
  ⟨rfl, rfl, rfl, rfl⟩

/-- Witness for the amended C6 theorem at payment 0, collateral 0, amount 0,
deadline 0 and now 5. -/
theorem builders_perform_no_validation_witness :
    (0 : Int) ≤ 0 ∧ (0 : Nat) ≤ 5 ∧
    (launch_paket "E" "L" "R" "C" 0 0 0 7).bul_refund_transaction.operations =
      [.payment "L" (0 + 0) "BUL" ISSUER (some "E")] :=
  ⟨by decide, by decide,
    (builders_perform_no_validation "E" "L" "R" "C" "F" "P" 0 600 5 7 0 0 0 (by decide)
        (by decide) (by decide)).1⟩

/-- C7 counterexample: a relay call whose two shares, 60 and 90, sum exactly
to a relayed amount of 150 still fails with NotImplementedError instead of
returning a child escrow plan, so the relay operation neither checks the
split nor delegates to the escrow plan builder. -/
theorem relay_fails_even_with_matching_split :
    (60 : Int) + 90 = 150 ∧
    relay_payment ⟨"A", "B", 60, 90, 600⟩ = .error "Relay payment not yet implemented." :=
  ⟨by decide, rfl⟩

/-- C7 (amended): the relay operation is unimplemented: every call, whatever
its arguments and regardless of whether the shares sum to the amount being
relayed, fails with NotImplementedError and never returns a child escrow
plan. -/
theorem relay_payment_not_implemented (args : RelayArgs) :
    relay_payment args = .error "Relay payment not yet implemented." :=
  rfl

/-- C9: for every refund envelope with a single time bound whose lower bound
minTime is positive and whose upper bound is not violated, calling the refund
operation strictly before minTime raises the timelock failure without
submitting, and calling it at or after minTime submits the envelope. -/
theorem refund_timelock (now m M seq : Nat) (src : String) (ops : List Operation)
    (hm : 0 < m) (hM : ¬ (0 < M ∧ M < now)) :
    (now < m →
      refund now ⟨src, seq, ops, [⟨m, M⟩]⟩ = .raised (.too_early m now)) ∧
    (m ≤ now →
      refund now ⟨src, seq, ops, [⟨m, M⟩]⟩ = .submitted ⟨src, seq, ops, [⟨m, M⟩]⟩) := by
  constructor
  · intro h
    simp [refund, check_time_bounds, hm, h]
  · intro h
    have h1 : ¬ (0 < m ∧ now < m) := by omega
    simp [refund, check_time_bounds, h1, hM]

/-- Witness for the C9 theorem: with a time bound of minTime 100 and no upper
bound, the refund call at time 50 raises and the refund call at time 150
submits. -/
theorem refund_timelock_witness :
    (0 : Nat) < 100 ∧
    refund 50 ⟨"E", 12, [], [⟨100, 0⟩]⟩ = .raised (.too_early 100 50) ∧
    refund 150 ⟨"E", 12, [], [⟨100, 0⟩]⟩ = .submitted ⟨"E", 12, [], [⟨100, 0⟩]⟩ :=
  ⟨by decide,
    (refund_timelock 50 100 0 12 "E" [] (by decide) (by decide)).1 (by decide),
    (refund_timelock 150 100 0 12 "E" [] (by decide) (by decide)).2 (by decide)⟩

/-- C10: for every address whose ledger account exists but whose balances hold
no BUL entry from the configured issuer, the account query raises
MissingTrust unless accept_untrusted is true, in which case it returns the
account details; and for every address with no ledger account it raises the
no-account-found error, for either value of accept_untrusted, rather than
returning details. -/
theorem get_bul_account_trust_and_existence (ledger : String → Option AddressDetails)
    (address missing_address : String) (details : AddressDetails)
    (hfound : ledger address = some details)
    (hnobul : (scan_balances details.balances).2 = none)
    (hmissing : ledger missing_address = none) :
    get_bul_account ledger address false = .error (.missing_trust address) ∧
    get_bul_account ledger address true =
      .ok ⟨details.sequence, details.signers, details.thresholds,
        (scan_balances details.balances).1, (scan_balances details.balances).2⟩ ∧
    ∀ b, get_bul_account ledger missing_address b =
      .error (.no_account_found missing_address) := by
  refine ⟨?_, ?_, ?_⟩
  · simp [get_bul_account, hfound, hnobul]
  · simp [get_bul_account, hfound]
  · intro b
    simp [get_bul_account, hmissing]

/-- Witness for the C10 theorem: a ledger holding one account with only a
native balance entry; querying it without accept_untrusted raises
MissingTrust. -/
theorem get_bul_account_trust_and_existence_witness :
    get_bul_account
      (fun a =>
        if a = "E" then some ⟨5, [], [], [⟨some "native", none, none, 30⟩]⟩ else none)
      "E" false = .error (.missing_trust "E") :=
  (get_bul_account_trust_and_existence
    (fun a =>
      if a = "E" then some ⟨5, [], [], [⟨some "native", none, none, 30⟩]⟩ else none)
    "E" "M" ⟨5, [], [], [⟨some "native", none, none, 30⟩]⟩ rfl rfl rfl).1

end Paket
